import Mathlib

/-!
Verification of the clinical normative scoring engine
(`ClinicalNorms` / `ClinicalScoring` in `backend/core/analysis/clinical_accuracy.py`).

The Python module is pure and deterministic; numeric work is ordinary
arithmetic on decimal constants, embedded here over `ℚ` (exact rationals).
Dictionaries become association lists, the `try/except KeyError` fallback
becomes `Option.getD`, and a direct dictionary access that may raise
`KeyError` becomes an `Option`-returning function.
-/

set_option maxRecDepth 4000
set_option linter.unusedTactic false

namespace ClinicalAccuracy

/-- One normative cell: `{mean: X, std: Y, cutoff: Z}`. -/
structure NormRow where
  mean : ℚ
  std : ℚ
  cutoff : ℚ
  deriving DecidableEq, Repr

/-- `ClinicalNorms.mmse_norms["by_age_education"]`: MMSE normative table,
age group → education level → row. -/
def mmse_by_age_education : List (String × List (String × NormRow)) :=
  [ ("18-24",
      [ ("grade_0-4", ⟨22.8, 3.9, 17⟩), ("grade_5-8", ⟨25.3, 3.3, 20⟩),
        ("grade_9-12", ⟨27.2, 2.7, 23⟩), ("college", ⟨28.5, 1.8, 26⟩) ]),
    ("25-29",
      [ ("grade_0-4", ⟨22.1, 4.1, 16⟩), ("grade_5-8", ⟨24.9, 3.4, 19⟩),
        ("grade_9-12", ⟨27.0, 2.8, 22⟩), ("college", ⟨28.3, 1.9, 25⟩) ]),
    ("30-39",
      [ ("grade_0-4", ⟨21.9, 4.2, 15⟩), ("grade_5-8", ⟨24.7, 3.5, 19⟩),
        ("grade_9-12", ⟨26.8, 2.9, 22⟩), ("college", ⟨28.1, 2.0, 25⟩) ]),
    ("40-49",
      [ ("grade_0-4", ⟨21.7, 4.3, 15⟩), ("grade_5-8", ⟨24.5, 3.6, 18⟩),
        ("grade_9-12", ⟨26.6, 3.0, 21⟩), ("college", ⟨27.9, 2.1, 24⟩) ]),
    ("50-59",
      [ ("grade_0-4", ⟨21.5, 4.4, 14⟩), ("grade_5-8", ⟨24.3, 3.7, 18⟩),
        ("grade_9-12", ⟨26.4, 3.1, 21⟩), ("college", ⟨27.7, 2.2, 24⟩) ]),
    ("60-69",
      [ ("grade_0-4", ⟨21.3, 4.5, 14⟩), ("grade_5-8", ⟨24.1, 3.8, 17⟩),
        ("grade_9-12", ⟨26.2, 3.2, 20⟩), ("college", ⟨27.5, 2.3, 23⟩) ]),
    ("70-79",
      [ ("grade_0-4", ⟨21.1, 4.6, 13⟩), ("grade_5-8", ⟨23.9, 3.9, 17⟩),
        ("grade_9-12", ⟨26.0, 3.3, 20⟩), ("college", ⟨27.3, 2.4, 23⟩) ]),
    ("80+",
      [ ("grade_0-4", ⟨20.9, 4.7, 12⟩), ("grade_5-8", ⟨23.7, 4.0, 16⟩),
        ("grade_9-12", ⟨25.8, 3.4, 19⟩), ("college", ⟨27.1, 2.5, 22⟩) ]) ]

/-- `ClinicalNorms.moca_norms["by_age_education"]`: MoCA normative table. -/
def moca_by_age_education : List (String × List (String × NormRow)) :=
  [ ("18-65", [ ("grade_0-12", ⟨25.9, 3.1, 22⟩), ("college", ⟨27.4, 2.1, 26⟩) ]),
    ("66-75", [ ("grade_0-12", ⟨25.1, 3.3, 21⟩), ("college", ⟨26.8, 2.3, 25⟩) ]),
    ("76+",   [ ("grade_0-12", ⟨24.3, 3.5, 20⟩), ("college", ⟨26.2, 2.5, 24⟩) ]) ]

/-- `ClinicalNorms.moca_norms["education_adjustment"]`. -/
def moca_education_adjustment : ℚ := 1

/-- `ClinicalNorms.get_age_group`. -/
def get_age_group (age : ℤ) : String :=
  if age < 25 then "18-24"
  else if age < 30 then "25-29"
  else if age < 40 then "30-39"
  else if age < 50 then "40-49"
  else if age < 60 then "50-59"
  else if age < 70 then "60-69"
  else if age < 80 then "70-79"
  else "80+"

/-- `ClinicalNorms.get_education_group`: the Python `education_map.get`
with default `'grade_9-12'`, a fixed five-key dictionary lookup. -/
def get_education_group (education_level : String) : String :=
  if education_level = "non_educated" then "grade_0-4"
  else if education_level = "primary" then "grade_5-8"
  else if education_level = "secondary" then "grade_9-12"
  else if education_level = "graduate" then "college"
  else if education_level = "postgraduate" then "college"
  else "grade_9-12"

/-- Nested dictionary access
`mmse_norms["by_age_education"][age_group][edu_group]`; `none` models
`KeyError`. -/
def mmseLookup (age_group edu_group : String) : Option NormRow :=
  (mmse_by_age_education.lookup age_group).bind fun t => t.lookup edu_group

/-- The `except KeyError` fallback row in `score_mmse_with_norms`:
`mean=24.0, std=3.0, cutoff=20`. -/
def mmseFallbackRow : NormRow := ⟨24.0, 3.0, 20⟩

/-- The `try/except KeyError` block of `score_mmse_with_norms`: the table
row if present, else the conservative fallback. -/
def resolveMMSERow (age : ℤ) (education_level : String) : NormRow :=
  (mmseLookup (get_age_group age) (get_education_group education_level)).getD
    mmseFallbackRow

/-- `ClinicalScoring.calculate_percentile`: cubic approximation of the
normal CDF with hard shortcuts below −3 and above 3 and a clamp to
[0.1, 99.9]. -/
def calculate_percentile (z_score : ℚ) : ℚ :=
  if z_score < -3 then 0.1
  else if z_score > 3 then 99.9
  else
    max 0.1 (min 99.9
      (50 + 34.13 * z_score - 2.78 * z_score ^ 2 + 0.74 * z_score ^ 3))

/-- The fields of the `score_mmse_with_norms` return dictionary that carry
numeric or categorical content (the free-text commentary strings are
omitted). `expected_std` records the std actually used for the z-score. -/
structure MMSEResult where
  raw_score : ℚ
  max_score : ℚ
  percentage : ℚ
  z_score : ℚ
  percentile : ℚ
  expected_mean : ℚ
  expected_std : ℚ
  clinical_cutoff : ℚ
  interpretation : String
  risk_level : String
  deriving Repr

/-- `ClinicalScoring.score_mmse_with_norms`. -/
def score_mmse_with_norms (raw_score : ℚ) (age : ℤ) (education_level : String) :
    MMSEResult :=
  let nd := resolveMMSERow age education_level
  let z_score := (raw_score - nd.mean) / nd.std
  let percentile := calculate_percentile z_score
  let interpretation :=
    if raw_score ≥ nd.mean - 0.5 * nd.std then "normal"
    else if raw_score ≥ nd.cutoff then "borderline"
    else if raw_score ≥ nd.cutoff - 5 then "mild_impairment"
    else "significant_impairment"
  let risk_level :=
    if raw_score ≥ nd.mean - 0.5 * nd.std then "low"
    else if raw_score ≥ nd.cutoff then "mild"
    else if raw_score ≥ nd.cutoff - 5 then "moderate"
    else "high"
  { raw_score := raw_score
    max_score := 30
    percentage := raw_score / 30 * 100
    z_score := z_score
    percentile := percentile
    expected_mean := nd.mean
    expected_std := nd.std
    clinical_cutoff := nd.cutoff
    interpretation := interpretation
    risk_level := risk_level }

/-- The content-bearing fields of the `score_moca_with_norms` return
dictionary. -/
structure MocaResult where
  raw_score : ℚ
  adjusted_score : ℚ
  education_adjustment : ℚ
  max_score : ℚ
  z_score : ℚ
  percentile : ℚ
  expected_mean : ℚ
  expected_std : ℚ
  clinical_cutoff : ℚ
  interpretation : String
  risk_level : String
  deriving Repr

/-- MoCA age-group selection inside `score_moca_with_norms`. -/
def moca_age_group (age : ℤ) : String :=
  if age < 66 then "18-65" else if age < 76 then "66-75" else "76+"

/-- MoCA education-group selection inside `score_moca_with_norms`. -/
def moca_edu_group (education_level : String) : String :=
  if education_level = "graduate" ∨ education_level = "postgraduate" then "college"
  else "grade_0-12"

/-- Dictionary access `moca_norms["by_age_education"][age_group][edu_group]`;
`none` models `KeyError` (the Python code has no `try/except` here). -/
def mocaLookup (age_group edu_group : String) : Option NormRow :=
  (moca_by_age_education.lookup age_group).bind fun t => t.lookup edu_group

/-- `ClinicalScoring.score_moca_with_norms`; `none` models an uncaught
`KeyError` on the normative lookup. -/
def score_moca_with_norms (raw_score : ℚ) (age : ℤ) (education_level : String) :
    Option MocaResult :=
  let adjusted_score :=
    if education_level ∈ ["non_educated", "primary"] then
      min (raw_score + moca_education_adjustment) 30
    else raw_score
  (mocaLookup (moca_age_group age) (moca_edu_group education_level)).map fun nd =>
    let z_score := (adjusted_score - nd.mean) / nd.std
    let percentile := calculate_percentile z_score
    let interpretation :=
      if adjusted_score ≥ 26 then "normal"
      else if adjusted_score ≥ 22 then "mild_cognitive_impairment"
      else if adjusted_score ≥ 17 then "moderate_impairment"
      else "severe_impairment"
    let risk_level :=
      if adjusted_score ≥ 26 then "low"
      else if adjusted_score ≥ 22 then "mild"
      else if adjusted_score ≥ 17 then "moderate"
      else "high"
    { raw_score := raw_score
      adjusted_score := adjusted_score
      education_adjustment := adjusted_score - raw_score
      max_score := 30
      z_score := z_score
      percentile := percentile
      expected_mean := nd.mean
      expected_std := nd.std
      clinical_cutoff := nd.cutoff
      interpretation := interpretation
      risk_level := risk_level }

/-- The `"mmse_sections"` bundle consumed by `analyze_error_patterns`:
each field is the section's `"score"` entry, `none` when the section key
(or its `"score"` key) is absent from the input dictionary. -/
structure MMSESections where
  registration : Option ℚ
  delayed_recall : Option ℚ
  attention_calculation : Option ℚ
  language_naming : Option ℚ
  language_repetition : Option ℚ
  orientation_time : Option ℚ
  orientation_place : Option ℚ
  deriving Repr

/-- A `test_responses` bundle with every section key absent. -/
def emptySections : MMSESections :=
  ⟨none, none, none, none, none, none, none⟩

/-- The `error_patterns` dictionary returned by `analyze_error_patterns`. -/
structure ErrorPatterns where
  memory_errors : List String
  attention_errors : List String
  language_errors : List String
  visuospatial_errors : List String
  executive_errors : List String
  overall_pattern : String
  deriving Repr

/-- Total deficit-flag count: `sum(len(errors) for errors in
error_patterns.values() if isinstance(errors, list))`. -/
def totalErrorCount (e : ErrorPatterns) : ℕ :=
  e.memory_errors.length + e.attention_errors.length + e.language_errors.length
    + e.visuospatial_errors.length + e.executive_errors.length

/-- The overall-pattern priority cascade at the end of
`analyze_error_patterns`, as a function of the five accumulated lists. -/
def overallPattern (total_errors : ℕ) (memory attention language : List String) :
    String :=
  if total_errors = 0 then "No significant error patterns detected"
  else if memory.length ≥ 2 then
    "Memory-predominant pattern (suggestive of Alzheimer\x27s type)"
  else if attention.length ≥ 2 then
    "Attention/Executive pattern (suggestive of vascular or mixed etiology)"
  else if language.length ≥ 1 then
    "Language-predominant pattern (requires aphasia evaluation)"
  else "Mixed cognitive pattern (requires comprehensive assessment)"

/-- `ClinicalScoring.analyze_error_patterns`; the argument is `none` when
`"mmse_sections" not in test_responses`. -/
def analyze_error_patterns (test_responses : Option MMSESections) :
    ErrorPatterns :=
  let memory_errors :=
    match test_responses with
    | none => []
    | some s =>
      let registration_score := s.registration.getD 3
      let recall_score := s.delayed_recall.getD 3
      (if registration_score < 3 then ["Immediate memory registration deficit"] else [])
        ++ (if recall_score < 2 then ["Delayed recall impairment"] else [])
        ++ (if recall_score < registration_score then ["Memory consolidation deficit"] else [])
  let attention_errors :=
    match test_responses with
    | none => []
    | some s =>
      let attention_score := s.attention_calculation.getD 5
      let time_orientation := s.orientation_time.getD 5
      let place_orientation := s.orientation_place.getD 5
      (if attention_score < 3 then ["Sustained attention impairment"] else [])
        ++ (if attention_score < 2 then ["Working memory deficit"] else [])
        ++ (if time_orientation < 4 then ["Temporal orientation impairment"] else [])
        ++ (if place_orientation < 4 then ["Spatial orientation impairment"] else [])
  let language_errors :=
    match test_responses with
    | none => []
    | some s =>
      let naming_score := s.language_naming.getD 2
      let repetition_score := s.language_repetition.getD 1
      (if naming_score < 2 then ["Object naming difficulty"] else [])
        ++ (if repetition_score < 1 then ["Complex phrase repetition deficit"] else [])
  let base : ErrorPatterns :=
    { memory_errors := memory_errors
      attention_errors := attention_errors
      language_errors := language_errors
      visuospatial_errors := []
      executive_errors := []
      overall_pattern := "" }
  let op :=
    overallPattern (totalErrorCount base) memory_errors attention_errors
      language_errors
  { base with overall_pattern := op }

/-- The default weight map of `calculate_composite_score`. -/
def default_weights : List (String × ℚ) :=
  [ ("mmse", 0.25), ("moca", 0.25), ("memory_tests", 0.30),
    ("attention_tests", 0.10), ("language_tests", 0.10) ]

/-- The accumulation loop of `calculate_composite_score`: for each
`(test_name, score)` whose name is a weight key, the pair
`(score * weight, weight)`. -/
def matchedContributions (test_scores weights : List (String × ℚ)) :
    List (ℚ × ℚ) :=
  test_scores.filterMap fun p =>
    (weights.lookup p.1).map fun w => (p.2 * w, w)

/-- `composite_score → risk_category` thresholds. -/
def composite_risk_category (composite_score : ℚ) : String :=
  if composite_score ≥ 85 then "low"
  else if composite_score ≥ 70 then "mild"
  else if composite_score ≥ 50 then "moderate"
  else "high"

/-- The content-bearing fields of the `calculate_composite_score` return
dictionary. -/
structure CompositeResult where
  composite_score : ℚ
  risk_category : String
  individual_scores : List (String × ℚ)
  weights_used : List (String × ℚ)
  deriving Repr

/-- `ClinicalScoring.calculate_composite_score`; a `none` weight argument
selects the default weight map. -/
def calculate_composite_score (test_scores : List (String × ℚ))
    (weights? : Option (List (String × ℚ))) : CompositeResult :=
  let weights := weights?.getD default_weights
  let contribs := matchedContributions test_scores weights
  let total_weight := (contribs.map (·.2)).sum
  let composite_score :=
    if total_weight > 0 then (contribs.map (·.1)).sum / total_weight
    else if test_scores = [] then 0
    else (test_scores.map (·.2)).sum / (test_scores.length : ℚ)
  { composite_score := composite_score
    risk_category := composite_risk_category composite_score
    individual_scores := test_scores
    weights_used := weights }

/-! ## Helper lemmas -/

/-- The clamp keeps `calculate_percentile` at or above 0.1. -/
lemma percentile_ge (z : ℚ) : 0.1 ≤ calculate_percentile z := by
  unfold calculate_percentile
  split_ifs with h1 h2
  · exact le_refl _
  · norm_num
  · exact le_max_left _ _

/-- The clamp keeps `calculate_percentile` at or below 99.9. -/
lemma percentile_le (z : ℚ) : calculate_percentile z ≤ 99.9 := by
  unfold calculate_percentile
  split_ifs with h1 h2
  · norm_num
  · exact le_refl _
  · exact max_le (by norm_num) (min_le_left _ _)

/-- The cubic `50 + 34.13z − 2.78z² + 0.74z³` is monotone nondecreasing:
its derivative `34.13 − 5.56z + 2.22z²` has negative discriminant. -/
lemma percentile_poly_mono {z1 z2 : ℚ} (h : z1 ≤ z2) :
    50 + 34.13 * z1 - 2.78 * z1 ^ 2 + 0.74 * z1 ^ 3 ≤
      50 + 34.13 * z2 - 2.78 * z2 ^ 2 + 0.74 * z2 ^ 3 := by
  nlinarith [mul_nonneg (sub_nonneg.mpr h) (sq_nonneg (z1 + z2 - 139 / 37)),
    mul_nonneg (sub_nonneg.mpr h) (sq_nonneg z1),
    mul_nonneg (sub_nonneg.mpr h) (sq_nonneg z2), sub_nonneg.mpr h]

/-! ## Claims -/

/-- Claim C1: `calculate_percentile` returns 0.1 for z < −3, 99.9 for
z > 3, and otherwise the cubic `50 + 34.13z − 2.78z² + 0.74z³` clamped
into [0.1, 99.9]; `calculate_percentile 0 = 50`,
`calculate_percentile 1 = 82.09`, and every value lies in [0.1, 99.9]. -/
theorem C1_calculate_percentile_formula (z : ℚ) :
    (z < -3 → calculate_percentile z = 0.1) ∧
    (z > 3 → calculate_percentile z = 99.9) ∧
    (-3 ≤ z → z ≤ 3 → calculate_percentile z =
      max 0.1 (min 99.9 (50 + 34.13 * z - 2.78 * z ^ 2 + 0.74 * z ^ 3))) ∧
    calculate_percentile 0 = 50 ∧
    calculate_percentile 1 = 82.09 ∧
    0.1 ≤ calculate_percentile z ∧ calculate_percentile z ≤ 99.9 := by
  refine ⟨?_, ?_, ?_, ?_, ?_, percentile_ge z, percentile_le z⟩
  · intro h
    unfold calculate_percentile
    rw [if_pos h]
  · intro h
    unfold calculate_percentile
    rw [if_neg (by linarith), if_pos h]
  · intro h1 h2
    unfold calculate_percentile
    rw [if_neg (not_lt.mpr h1), if_neg (not_lt.mpr h2)]
  · norm_num [calculate_percentile]
  · norm_num [calculate_percentile]

/-- Witness for C1 at z = −4, z = 4, z = 1. -/
theorem C1_calculate_percentile_formula_witness :
    calculate_percentile (-4) = 0.1 ∧ calculate_percentile 4 = 99.9 ∧
      calculate_percentile 1 = 82.09 :=
  ⟨(C1_calculate_percentile_formula (-4)).1 (by norm_num),
   (C1_calculate_percentile_formula 4).2.1 (by norm_num),
   (C1_calculate_percentile_formula 1).2.2.2.2.1⟩

/-- Claim C10: `calculate_percentile` is monotone nondecreasing in the
z-score. -/
theorem C10_calculate_percentile_mono (z1 z2 : ℚ) (h : z1 ≤ z2) :
    calculate_percentile z1 ≤ calculate_percentile z2 := by
  by_cases hz1 : z1 < -3
  · have hl : calculate_percentile z1 = 0.1 := by
      unfold calculate_percentile
      rw [if_pos hz1]
    rw [hl]
    exact percentile_ge z2
  · by_cases hz2 : z2 > 3
    · have hr : calculate_percentile z2 = 99.9 := by
        unfold calculate_percentile
        rw [if_neg (by linarith), if_pos hz2]
      rw [hr]
      exact percentile_le z1
    · have hz1' : ¬ z1 > 3 := by
        push_neg at hz2 ⊢
        linarith
      have hz2' : ¬ z2 < -3 := by
        push_neg at hz1 ⊢
        linarith
      unfold calculate_percentile
      rw [if_neg hz1, if_neg hz1', if_neg hz2', if_neg hz2]
      exact max_le_max (le_refl _) (min_le_min (le_refl _) (percentile_poly_mono h))

/-- Witness for C10 at z1 = 0, z2 = 1. -/
theorem C10_calculate_percentile_mono_witness :
    calculate_percentile 0 ≤ calculate_percentile 1 :=
  C10_calculate_percentile_mono 0 1 (by norm_num)

/-- Claim C2: `score_mmse_with_norms` assigns interpretation and risk
level from the resolved normative row by the exact cascade
normal/borderline/mild_impairment/significant_impairment; a raw score
exactly at `mean − 0.5·std` is "normal", and one point below it that is
still at or above the cutoff is "borderline". -/
theorem C2_mmse_tier_cascade (raw_score : ℚ) (age : ℤ) (education_level : String) :
    (score_mmse_with_norms raw_score age education_level).interpretation =
      (if raw_score ≥ (resolveMMSERow age education_level).mean -
          0.5 * (resolveMMSERow age education_level).std then "normal"
       else if raw_score ≥ (resolveMMSERow age education_level).cutoff then "borderline"
       else if raw_score ≥ (resolveMMSERow age education_level).cutoff - 5 then "mild_impairment"
       else "significant_impairment") ∧
    (score_mmse_with_norms raw_score age education_level).risk_level =
      (if raw_score ≥ (resolveMMSERow age education_level).mean -
          0.5 * (resolveMMSERow age education_level).std then "low"
       else if raw_score ≥ (resolveMMSERow age education_level).cutoff then "mild"
       else if raw_score ≥ (resolveMMSERow age education_level).cutoff - 5 then "moderate"
       else "high") ∧
    (raw_score = (resolveMMSERow age education_level).mean -
        0.5 * (resolveMMSERow age education_level).std →
      (score_mmse_with_norms raw_score age education_level).interpretation = "normal" ∧
      (score_mmse_with_norms raw_score age education_level).risk_level = "low") ∧
    (raw_score = (resolveMMSERow age education_level).mean -
        0.5 * (resolveMMSERow age education_level).std - 1 →
      raw_score ≥ (resolveMMSERow age education_level).cutoff →
      (score_mmse_with_norms raw_score age education_level).interpretation = "borderline" ∧
      (score_mmse_with_norms raw_score age education_level).risk_level = "mild") := by
  refine ⟨rfl, rfl, ?_, ?_⟩
  · intro h
    have hge : raw_score ≥ (resolveMMSERow age education_level).mean -
        0.5 * (resolveMMSERow age education_level).std := ge_of_eq h
    constructor
    · show (if raw_score ≥ _ - 0.5 * _ then "normal" else _) = "normal"
      rw [if_pos hge]
    · show (if raw_score ≥ _ - 0.5 * _ then "low" else _) = "low"
      rw [if_pos hge]
  · intro h hcut
    have hlt : ¬ raw_score ≥ (resolveMMSERow age education_level).mean -
        0.5 * (resolveMMSERow age education_level).std := by
      rw [ge_iff_le, not_le, h]
      linarith
    constructor
    · show (if raw_score ≥ _ - 0.5 * _ then "normal"
          else if raw_score ≥ _ then "borderline" else _) = "borderline"
      rw [if_neg hlt, if_pos hcut]
    · show (if raw_score ≥ _ - 0.5 * _ then "low"
          else if raw_score ≥ _ then "mild" else _) = "mild"
      rw [if_neg hlt, if_pos hcut]

/-- Witness for C2: for the 60-69 / grade_9-12 row (mean 26.2, std 3.2,
cutoff 20), a raw score of 24.6 = mean − 0.5·std is "normal" and 23.6 is
"borderline". -/
theorem C2_mmse_tier_cascade_witness :
    (score_mmse_with_norms 24.6 68 "secondary").interpretation = "normal" ∧
    (score_mmse_with_norms 23.6 68 "secondary").interpretation = "borderline" :=
  ⟨((C2_mmse_tier_cascade 24.6 68 "secondary").2.2.1
      (by norm_num [show resolveMMSERow 68 "secondary" = ⟨26.2, 3.2, 20⟩ from rfl])).1,
   ((C2_mmse_tier_cascade 23.6 68 "secondary").2.2.2
      (by norm_num [show resolveMMSERow 68 "secondary" = ⟨26.2, 3.2, 20⟩ from rfl])
      (by norm_num [show resolveMMSERow 68 "secondary" = ⟨26.2, 3.2, 20⟩ from rfl])).1⟩

/-- Claim C6: the end-to-end MMSE scenario raw=22, age=68,
education="secondary": band "60-69" × "grade_9-12", row
{mean 26.2, std 3.2, cutoff 20}, z = (22 − 26.2)/3.2 = −1.3125,
percentile = cubic formula clamped to 0.1, interpretation "borderline",
risk level "mild". -/
theorem C6_mmse_scenario_22_68_secondary :
    get_age_group 68 = "60-69" ∧
    get_education_group "secondary" = "grade_9-12" ∧
    resolveMMSERow 68 "secondary" = ⟨26.2, 3.2, 20⟩ ∧
    (score_mmse_with_norms 22 68 "secondary").z_score = (22 - 26.2) / 3.2 ∧
    (score_mmse_with_norms 22 68 "secondary").z_score = -1.3125 ∧
    (score_mmse_with_norms 22 68 "secondary").percentile =
      calculate_percentile (-1.3125) ∧
    (score_mmse_with_norms 22 68 "secondary").percentile = 0.1 ∧
    (score_mmse_with_norms 22 68 "secondary").interpretation = "borderline" ∧
    (score_mmse_with_norms 22 68 "secondary").risk_level = "mild" := by
  have hrow : resolveMMSERow 68 "secondary" = ⟨26.2, 3.2, 20⟩ := rfl
  have hz : ((22 : ℚ) - 26.2) / 3.2 = -1.3125 := by norm_num
  refine ⟨rfl, rfl, hrow, rfl, ?_, ?_, ?_, ?_, ?_⟩
  · simp only [score_mmse_with_norms, hrow]
    norm_num
  · simp only [score_mmse_with_norms, hrow, hz]
  · simp only [score_mmse_with_norms, hrow, hz]
    norm_num [calculate_percentile]
  · simp only [score_mmse_with_norms, hrow]
    norm_num
  · simp only [score_mmse_with_norms, hrow]
    norm_num

/-- `moca_age_group` only produces the three MoCA band keys. -/
lemma moca_age_group_cases (age : ℤ) :
    moca_age_group age = "18-65" ∨ moca_age_group age = "66-75" ∨
      moca_age_group age = "76+" := by
  unfold moca_age_group
  split_ifs <;> simp

/-- `moca_edu_group` only produces the two MoCA education keys. -/
lemma moca_edu_group_cases (el : String) :
    moca_edu_group el = "college" ∨ moca_edu_group el = "grade_0-12" := by
  unfold moca_edu_group
  split_ifs <;> simp

/-- The MoCA normative lookup always hits a cell, whose std is positive. -/
lemma mocaLookup_row (age : ℤ) (el : String) :
    ∃ nd, mocaLookup (moca_age_group age) (moca_edu_group el) = some nd ∧
      0 < nd.std := by
  rcases moca_age_group_cases age with h | h | h <;>
    rcases moca_edu_group_cases el with h' | h' <;> rw [h, h'] <;>
      exact ⟨_, rfl, by norm_num⟩

/-- `get_age_group` only produces the eight MMSE band keys. -/
lemma get_age_group_cases (age : ℤ) :
    get_age_group age = "18-24" ∨ get_age_group age = "25-29" ∨
      get_age_group age = "30-39" ∨ get_age_group age = "40-49" ∨
      get_age_group age = "50-59" ∨ get_age_group age = "60-69" ∨
      get_age_group age = "70-79" ∨ get_age_group age = "80+" := by
  unfold get_age_group
  split_ifs <;> simp

/-- `get_education_group` only produces the four education band keys. -/
lemma get_education_group_cases (el : String) :
    get_education_group el = "grade_0-4" ∨ get_education_group el = "grade_5-8" ∨
      get_education_group el = "grade_9-12" ∨ get_education_group el = "college" := by
  unfold get_education_group
  split_ifs <;> simp

/-- The MMSE normative lookup always hits a cell along the resolved band
pair, and that cell's std is positive. -/
lemma mmseLookup_row (age : ℤ) (el : String) :
    ∃ nd, mmseLookup (get_age_group age) (get_education_group el) = some nd ∧
      0 < nd.std := by
  rcases get_age_group_cases age with h | h | h | h | h | h | h | h <;>
    rcases get_education_group_cases el with h' | h' | h' | h' <;> rw [h, h'] <;>
      exact ⟨_, rfl, by norm_num⟩

/-- The std of the resolved MMSE row is always strictly positive. -/
lemma resolveMMSERow_std_pos (age : ℤ) (el : String) :
    0 < (resolveMMSERow age el).std := by
  obtain ⟨nd, hnd, hstd⟩ := mmseLookup_row age el
  unfold resolveMMSERow
  rw [hnd]
  exact hstd

/-- Claim C3: `score_moca_with_norms` adds exactly 1 point for
`non_educated`/`primary` education and caps the adjusted score at 30, and
interprets by the absolute thresholds ≥26 / ≥22 / ≥17 on the adjusted
score; raw 30 with `non_educated` yields adjusted score 30, not 31. -/
theorem C3_moca_adjustment_and_thresholds (raw_score : ℚ) (age : ℤ)
    (education_level : String) :
    (∃ r, score_moca_with_norms raw_score age education_level = some r ∧
      r.adjusted_score =
        (if education_level ∈ ["non_educated", "primary"]
         then min (raw_score + 1) 30 else raw_score) ∧
      r.interpretation =
        (if r.adjusted_score ≥ 26 then "normal"
         else if r.adjusted_score ≥ 22 then "mild_cognitive_impairment"
         else if r.adjusted_score ≥ 17 then "moderate_impairment"
         else "severe_impairment") ∧
      r.risk_level =
        (if r.adjusted_score ≥ 26 then "low"
         else if r.adjusted_score ≥ 22 then "mild"
         else if r.adjusted_score ≥ 17 then "moderate"
         else "high")) ∧
    Option.map MocaResult.adjusted_score (score_moca_with_norms 30 70 "non_educated") =
      some 30 := by
  constructor
  · obtain ⟨nd, hnd, _⟩ := mocaLookup_row age education_level
    simp only [score_moca_with_norms, hnd, Option.map_some']
    exact ⟨_, rfl, rfl, rfl, rfl⟩
  · simp only [score_moca_with_norms,
      show mocaLookup (moca_age_group 70) (moca_edu_group "non_educated") =
        some ⟨25.1, 3.3, 21⟩ from rfl, Option.map_some', Option.some.injEq]
    norm_num [moca_education_adjustment]

/-- Claim C9: every std in the MMSE and MoCA normative tables is strictly
positive, as is the MMSE fallback std of 3.0, so the z-score divisions in
`score_mmse_with_norms` and `score_moca_with_norms` never divide by zero
and both functions return a result. -/
theorem C9_no_division_by_zero (raw_score : ℚ) (age : ℤ) (education_level : String) :
    (∀ p ∈ mmse_by_age_education, ∀ c ∈ p.2, 0 < c.2.std) ∧
    (∀ p ∈ moca_by_age_education, ∀ c ∈ p.2, 0 < c.2.std) ∧
    mmseFallbackRow.std = 3.0 ∧ 0 < mmseFallbackRow.std ∧
    0 < (resolveMMSERow age education_level).std ∧
    (score_mmse_with_norms raw_score age education_level).expected_std =
      (resolveMMSERow age education_level).std ∧
    (∃ r, score_moca_with_norms raw_score age education_level = some r ∧
      0 < r.expected_std) := by
  refine ⟨?_, ?_, rfl, by norm_num [mmseFallbackRow],
    resolveMMSERow_std_pos age education_level, rfl, ?_⟩
  · intro p hp
    fin_cases hp <;> intro c hc <;> fin_cases hc <;> norm_num
  · intro p hp
    fin_cases hp <;> intro c hc <;> fin_cases hc <;> norm_num
  · obtain ⟨nd, hnd, hstd⟩ := mocaLookup_row age education_level
    simp only [score_moca_with_norms, hnd, Option.map_some']
    exact ⟨_, rfl, hstd⟩

/-- Witness for C9: the 18-24 × grade_0-4 cell has positive std, and so
does the row resolved for age 68, secondary education. -/
theorem C9_no_division_by_zero_witness :
    0 < (NormRow.mk 22.8 3.9 17).std ∧ 0 < (resolveMMSERow 68 "secondary").std := by
  constructor
  · exact (C9_no_division_by_zero 22 68 "secondary").1
      ("18-24",
        [ ("grade_0-4", ⟨22.8, 3.9, 17⟩), ("grade_5-8", ⟨25.3, 3.3, 20⟩),
          ("grade_9-12", ⟨27.2, 2.7, 23⟩), ("college", ⟨28.5, 1.8, 26⟩) ])
      (by unfold mmse_by_age_education; exact List.mem_cons_self _ _)
      ("grade_0-4", ⟨22.8, 3.9, 17⟩) (List.mem_cons_self _ _)
  · exact (C9_no_division_by_zero 22 68 "secondary").2.2.2.2.1

/-- The category thresholds of `composite_risk_category`, as exact
characterizations. -/
lemma composite_risk_category_iff (c : ℚ) :
    (composite_risk_category c = "low" ↔ c ≥ 85) ∧
    (composite_risk_category c = "mild" ↔ 70 ≤ c ∧ c < 85) ∧
    (composite_risk_category c = "moderate" ↔ 50 ≤ c ∧ c < 70) ∧
    (composite_risk_category c = "high" ↔ c < 50) := by
  unfold composite_risk_category
  split_ifs with h1 h2 h3 <;> refine ⟨⟨fun hx => ?_, fun hx => ?_⟩,
    ⟨fun hx => ?_, fun hx => ?_⟩, ⟨fun hx => ?_, fun hx => ?_⟩,
    ⟨fun hx => ?_, fun hx => ?_⟩⟩ <;>
    first
      | rfl
      | linarith
      | exact absurd hx (by decide)
      | (exfalso; obtain ⟨hx1, hx2⟩ := hx; linarith)
      | exact ⟨by linarith, by linarith⟩

/-- Claim C4: `calculate_composite_score` divides the matched weighted sum
by the sum of matched weights only; with no matching weight key it falls
back to the arithmetic mean of the provided scores (so a lone
`unknown_test` score of 80 yields 80); and the risk category thresholds
are ≥85 low, ≥70 mild, ≥50 moderate, else high. -/
theorem C4_composite_weighting (test_scores : List (String × ℚ))
    (weights? : Option (List (String × ℚ))) :
    (((matchedContributions test_scores (weights?.getD default_weights)).map (·.2)).sum > 0 →
      (calculate_composite_score test_scores weights?).composite_score =
        ((matchedContributions test_scores (weights?.getD default_weights)).map (·.1)).sum /
          ((matchedContributions test_scores (weights?.getD default_weights)).map (·.2)).sum) ∧
    ((∀ p ∈ test_scores, (weights?.getD default_weights).lookup p.1 = none) →
      test_scores ≠ [] →
      (calculate_composite_score test_scores weights?).composite_score =
        (test_scores.map (·.2)).sum / (test_scores.length : ℚ)) ∧
    (calculate_composite_score [("unknown_test", 80)] none).composite_score = 80 ∧
    ((calculate_composite_score test_scores weights?).risk_category = "low" ↔
      (calculate_composite_score test_scores weights?).composite_score ≥ 85) ∧
    ((calculate_composite_score test_scores weights?).risk_category = "mild" ↔
      70 ≤ (calculate_composite_score test_scores weights?).composite_score ∧
        (calculate_composite_score test_scores weights?).composite_score < 85) ∧
    ((calculate_composite_score test_scores weights?).risk_category = "moderate" ↔
      50 ≤ (calculate_composite_score test_scores weights?).composite_score ∧
        (calculate_composite_score test_scores weights?).composite_score < 70) ∧
    ((calculate_composite_score test_scores weights?).risk_category = "high" ↔
      (calculate_composite_score test_scores weights?).composite_score < 50) := by
  have hr : (calculate_composite_score test_scores weights?).risk_category =
      composite_risk_category
        (calculate_composite_score test_scores weights?).composite_score := rfl
  have hrc := composite_risk_category_iff
    (calculate_composite_score test_scores weights?).composite_score
  refine ⟨?_, ?_, ?_, ?_, ?_, ?_, ?_⟩
  · intro h
    simp only [calculate_composite_score]
    rw [if_pos h]
  · intro h hne
    have hnil : matchedContributions test_scores (weights?.getD default_weights) = [] := by
      simp only [matchedContributions, List.filterMap_eq_nil_iff]
      intro p hp
      rw [h p hp]
      rfl
    simp only [calculate_composite_score, hnil, List.map_nil, List.sum_nil]
    rw [if_neg (lt_irrefl 0), if_neg hne]
  · simp only [calculate_composite_score,
      show matchedContributions [("unknown_test", 80)] (Option.getD none default_weights) =
        [] from rfl, List.map_nil, List.sum_nil]
    norm_num
  · rw [hr]
    exact hrc.1
  · rw [hr]
    exact hrc.2.1
  · rw [hr]
    exact hrc.2.2.1
  · rw [hr]
    exact hrc.2.2.2

/-- Witness for C4: the no-match fallback applied to the single score
`("unknown_test", 80)` under the default weights. -/
theorem C4_composite_weighting_witness :
    (calculate_composite_score [("unknown_test", 80)] none).composite_score =
      ([(("unknown_test" : String), (80 : ℚ))].map (·.2)).sum /
        (([(("unknown_test" : String), (80 : ℚ))] : List (String × ℚ)).length : ℚ) :=
  (C4_composite_weighting [("unknown_test", 80)] none).2.1
    (by intro p hp; fin_cases hp; rfl) (by simp)

/-- The overall pattern field of `analyze_error_patterns` is computed by
the `overallPattern` cascade over the accumulated domain lists. -/
lemma analyze_overall_eq (tr : Option MMSESections) :
    (analyze_error_patterns tr).overall_pattern =
      overallPattern (totalErrorCount (analyze_error_patterns tr))
        (analyze_error_patterns tr).memory_errors
        (analyze_error_patterns tr).attention_errors
        (analyze_error_patterns tr).language_errors := rfl

/-- The C5 scenario bundle: registration 1, delayed recall 1, attention 1
(two memory flags and two attention flags at once). -/
def memoryAttentionSections : MMSESections :=
  { emptySections with
      registration := some 1
      delayed_recall := some 1
      attention_calculation := some 1 }

/-- Claim C5: the overall pattern label follows the exact priority order
no-pattern / memory ≥2 / attention ≥2 / language ≥1 / mixed, and with two
memory flags and two attention flags simultaneously the memory-predominant
label wins. -/
theorem C5_overall_pattern_priority (tr : Option MMSESections) :
    (totalErrorCount (analyze_error_patterns tr) = 0 →
      (analyze_error_patterns tr).overall_pattern =
        "No significant error patterns detected") ∧
    (totalErrorCount (analyze_error_patterns tr) ≠ 0 →
      2 ≤ (analyze_error_patterns tr).memory_errors.length →
      (analyze_error_patterns tr).overall_pattern =
        "Memory-predominant pattern (suggestive of Alzheimer\x27s type)") ∧
    (totalErrorCount (analyze_error_patterns tr) ≠ 0 →
      (analyze_error_patterns tr).memory_errors.length < 2 →
      2 ≤ (analyze_error_patterns tr).attention_errors.length →
      (analyze_error_patterns tr).overall_pattern =
        "Attention/Executive pattern (suggestive of vascular or mixed etiology)") ∧
    (totalErrorCount (analyze_error_patterns tr) ≠ 0 →
      (analyze_error_patterns tr).memory_errors.length < 2 →
      (analyze_error_patterns tr).attention_errors.length < 2 →
      1 ≤ (analyze_error_patterns tr).language_errors.length →
      (analyze_error_patterns tr).overall_pattern =
        "Language-predominant pattern (requires aphasia evaluation)") ∧
    (totalErrorCount (analyze_error_patterns tr) ≠ 0 →
      (analyze_error_patterns tr).memory_errors.length < 2 →
      (analyze_error_patterns tr).attention_errors.length < 2 →
      (analyze_error_patterns tr).language_errors.length = 0 →
      (analyze_error_patterns tr).overall_pattern =
        "Mixed cognitive pattern (requires comprehensive assessment)") ∧
    (analyze_error_patterns (some memoryAttentionSections)).memory_errors.length = 2 ∧
    (analyze_error_patterns (some memoryAttentionSections)).attention_errors.length = 2 ∧
    (analyze_error_patterns (some memoryAttentionSections)).overall_pattern =
      "Memory-predominant pattern (suggestive of Alzheimer\x27s type)" := by
  refine ⟨?_, ?_, ?_, ?_, ?_, rfl, rfl, rfl⟩
  · intro h0
    rw [analyze_overall_eq tr]
    unfold overallPattern
    rw [if_pos h0]
  · intro h0 hm
    rw [analyze_overall_eq tr]
    unfold overallPattern
    rw [if_neg h0, if_pos hm]
  · intro h0 hm ha
    rw [analyze_overall_eq tr]
    unfold overallPattern
    rw [if_neg h0, if_neg (by omega), if_pos ha]
  · intro h0 hm ha hl
    rw [analyze_overall_eq tr]
    unfold overallPattern
    rw [if_neg h0, if_neg (by omega), if_neg (by omega), if_pos hl]
  · intro h0 hm ha hl
    rw [analyze_overall_eq tr]
    unfold overallPattern
    rw [if_neg h0, if_neg (by omega), if_neg (by omega), if_neg (by omega)]

/-- Witness for C5: the memory-predominant branch fires on the two-memory
and two-attention flag scenario. -/
theorem C5_overall_pattern_priority_witness :
    (analyze_error_patterns (some memoryAttentionSections)).overall_pattern =
      "Memory-predominant pattern (suggestive of Alzheimer\x27s type)" :=
  (C5_overall_pattern_priority (some memoryAttentionSections)).2.1
    (by
      have h4 : totalErrorCount
          (analyze_error_patterns (some memoryAttentionSections)) = 4 := rfl
      omega)
    (by
      have h2 : (analyze_error_patterns
          (some memoryAttentionSections)).memory_errors.length = 2 := rfl
      omega)

/-- Claim C7: a section key absent from the bundle behaves exactly as its
full-credit default (registration 3, delayed recall 3, attention 5,
naming 2, repetition 1, orientation 5/5), and a bundle with no
`mmse_sections` key, like the empty map, yields five empty error lists and
the no-pattern label. -/
theorem C7_missing_sections_full_credit (s : MMSESections) :
    (s.registration = none → analyze_error_patterns (some s) =
      analyze_error_patterns (some { s with registration := some 3 })) ∧
    (s.delayed_recall = none → analyze_error_patterns (some s) =
      analyze_error_patterns (some { s with delayed_recall := some 3 })) ∧
    (s.attention_calculation = none → analyze_error_patterns (some s) =
      analyze_error_patterns (some { s with attention_calculation := some 5 })) ∧
    (s.language_naming = none → analyze_error_patterns (some s) =
      analyze_error_patterns (some { s with language_naming := some 2 })) ∧
    (s.language_repetition = none → analyze_error_patterns (some s) =
      analyze_error_patterns (some { s with language_repetition := some 1 })) ∧
    (s.orientation_time = none → analyze_error_patterns (some s) =
      analyze_error_patterns (some { s with orientation_time := some 5 })) ∧
    (s.orientation_place = none → analyze_error_patterns (some s) =
      analyze_error_patterns (some { s with orientation_place := some 5 })) ∧
    analyze_error_patterns none =
      ⟨[], [], [], [], [], "No significant error patterns detected"⟩ ∧
    analyze_error_patterns (some emptySections) =
      ⟨[], [], [], [], [], "No significant error patterns detected"⟩ := by
  obtain ⟨f1, f2, f3, f4, f5, f6, f7⟩ := s
  refine ⟨?_, ?_, ?_, ?_, ?_, ?_, ?_, rfl, rfl⟩ <;> intro h <;> subst h <;> rfl

/-- Witness for C7: the all-absent bundle equals the bundle with explicit
full-credit registration. -/
theorem C7_missing_sections_full_credit_witness :
    analyze_error_patterns (some emptySections) =
      analyze_error_patterns (some { emptySections with registration := some 3 }) :=
  (C7_missing_sections_full_credit emptySections).1 rfl

/-- Claim C8: normative resolution is total: `get_education_group` always
lands in the four bands, mapping unrecognized strings to grade_9-12; the
MMSE lookup along any resolved (age, education) pair hits a cell; and an
absent cell resolves to the fallback row mean 24.0, std 3.0, cutoff 20
instead of raising. -/
theorem C8_normative_resolution_total (education_level : String) (age : ℤ)
    (ag eg : String) :
    get_education_group education_level ∈
      ["grade_0-4", "grade_5-8", "grade_9-12", "college"] ∧
    (education_level ∉
        ["non_educated", "primary", "secondary", "graduate", "postgraduate"] →
      get_education_group education_level = "grade_9-12") ∧
    (mmseLookup (get_age_group age) (get_education_group education_level)).isSome ∧
    resolveMMSERow age education_level =
      (mmseLookup (get_age_group age) (get_education_group education_level)).getD
        mmseFallbackRow ∧
    (mmseLookup ag eg = none →
      (mmseLookup ag eg).getD mmseFallbackRow = ⟨24.0, 3.0, 20⟩) := by
  refine ⟨?_, ?_, ?_, rfl, ?_⟩
  · rcases get_education_group_cases education_level with h | h | h | h <;>
      rw [h] <;> simp
  · intro h
    simp only [List.mem_cons, List.not_mem_nil, or_false, not_or] at h
    obtain ⟨h1, h2, h3, h4, h5⟩ := h
    unfold get_education_group
    rw [if_neg h1, if_neg h2, if_neg h3, if_neg h4, if_neg h5]
  · obtain ⟨nd, hnd, _⟩ := mmseLookup_row age education_level
    rw [hnd]
    rfl
  · intro h
    rw [h]
    rfl

/-- Witness for C8: the unrecognized label "unknown" maps to grade_9-12,
and a miss on made-up band keys resolves to the fallback row. -/
theorem C8_normative_resolution_total_witness :
    get_education_group "unknown" = "grade_9-12" ∧
    (mmseLookup "nokey" "missing").getD mmseFallbackRow = ⟨24.0, 3.0, 20⟩ :=
  ⟨(C8_normative_resolution_total "unknown" 68 "nokey" "missing").2.1 (by decide),
   (C8_normative_resolution_total "unknown" 68 "nokey" "missing").2.2.2.2 rfl⟩

end ClinicalAccuracy
